import Mathlib

/-!
Verification development for a small data-access layer (users, products,
orders, payments) backed by a relational store, with a query-result cache
in the connection manager, per-entity caches in the services, and
session-based authentication.  The definitions below are shallow
embeddings of the JavaScript classes (DatabaseManager, UserService,
AuthenticationService, ProductService, OrderService, PaymentService) and
of the Java variant of DatabaseManager found in the same repository.
-/

set_option maxHeartbeats 1000000

deriving instance DecidableEq for Except

/-- JS runtime values that appear as SQL parameters in the source:
strings and numbers. -/
inductive JsVal where
  | str (s : String)
  | num (n : Int)
deriving DecidableEq

/-- Model of JSON.stringify on one parameter value.  String escaping is
irrelevant here: only the result being a deterministic serialization
matters to the cache key. -/
def JsVal.serialize : JsVal → String
  | .str s => "\"" ++ s ++ "\""
  | .num n => toString n

/-- Model of JSON.stringify on a parameter array. -/
def serializeParams (ps : List JsVal) : String :=
  "[" ++ String.intercalate "," (ps.map JsVal.serialize) ++ "]"

/-! A JS Map is modelled as an insertion-ordered association list with
unique keys.  Map.get / Map.set / Map.delete become the functions below;
Map.set on a present key updates the value in place (keeping the entry
at its original position), on an absent key it appends at the end, which
is exactly the insertion-order behaviour of a JS Map. -/

def mapGet {K V : Type} [DecidableEq K] : List (K × V) → K → Option V
  | [], _ => none
  | (k, v) :: t, k0 => if k = k0 then some v else mapGet t k0

def mapSet {K V : Type} [DecidableEq K] : List (K × V) → K → V → List (K × V)
  | [], k0, v0 => [(k0, v0)]
  | (k, v) :: t, k0, v0 => if k = k0 then (k0, v0) :: t else (k, v) :: mapSet t k0 v0

/-- Map.delete: removes the entry for the key.  On well-formed states
(unique keys) removing every matching entry coincides with removing the
single one. -/
def mapDelete {K V : Type} [DecidableEq K] (m : List (K × V)) (k0 : K) : List (K × V) :=
  m.filter fun kv => decide (kv.1 ≠ k0)

/-- The keys of a map, in insertion order. -/
def keysOf {K V : Type} (m : List (K × V)) : List K := m.map Prod.fst


/-! Entity records, mapped 1:1 from store rows. -/

structure UserRow where
  id : Int
  name : String
  email : String
  role : String
deriving DecidableEq

structure ProductRow where
  id : Int
  name : String
  description : String
  price : Int
  category : String
deriving DecidableEq

structure OrderRow where
  id : Int
  userId : Int
  total : Int
  status : String
deriving DecidableEq

/-- The backing relational store: one table per entity. -/
structure Store where
  users : List UserRow
  products : List ProductRow
  orders : List OrderRow
deriving DecidableEq

def emptyStore : Store := { users := [], products := [], orders := [] }

/-- Results a statement execution can produce: a row set (per table), an
insert result carrying insertId, or a plain write acknowledgement. -/
inductive DbResult where
  | userRows (rows : List UserRow)
  | productRows (rows : List ProductRow)
  | orderRows (rows : List OrderRow)
  | insertResult (insertId : Int)
  | writeOk
deriving DecidableEq

/-- Error taxonomy of the layer (spec section 7).  The source throws
plain Error objects with distinguishing messages; the constructors below
record which failure is meant.  typeError stands for a JS TypeError
raised by the runtime itself (access on undefined). -/
inductive Err where
  | notConnected
  | notFound (msg : String)
  | validation (msg : String)
  | typeError (msg : String)
deriving DecidableEq

/-- Modelled from the spec: the opaque SQL store collaborator (spec
sections 1 and 6; the SQL engine is excluded as an external
collaborator).  It interprets the fixed statement texts issued by the
services with standard SQL semantics and positional parameter binding.
Statements outside the vocabulary of the embedded operations leave the
store unchanged. -/
def storeExec (sql : String) (params : List JsVal) (st : Store) : DbResult × Store :=
  if sql = "SELECT * FROM users WHERE id = ?" then
    match params with
    | [JsVal.num i] => (DbResult.userRows (st.users.filter fun u => u.id == i), st)
    | _ => (DbResult.writeOk, st)
  else if sql = "INSERT INTO users (name, email, role) VALUES (?, ?, ?)" then
    match params with
    | [JsVal.str n, JsVal.str e, JsVal.str r] =>
      (DbResult.insertResult (Int.ofNat st.users.length + 1),
       { st with users := st.users ++ [⟨Int.ofNat st.users.length + 1, n, e, r⟩] })
    | _ => (DbResult.writeOk, st)
  else if sql = "UPDATE users SET name = ?, email = ?, role = ? WHERE id = ?" then
    match params with
    | [JsVal.str n, JsVal.str e, JsVal.str r, JsVal.num i] =>
      (DbResult.writeOk,
       { st with users := st.users.map fun u =>
          if u.id == i then { u with name := n, email := e, role := r } else u })
    | _ => (DbResult.writeOk, st)
  else if sql = "DELETE FROM users WHERE id = ?" then
    match params with
    | [JsVal.num i] => (DbResult.writeOk, { st with users := st.users.filter fun u => !(u.id == i) })
    | _ => (DbResult.writeOk, st)
  else if sql = "SELECT * FROM products WHERE id = ?" then
    match params with
    | [JsVal.num i] => (DbResult.productRows (st.products.filter fun p => p.id == i), st)
    | _ => (DbResult.writeOk, st)
  else if sql = "INSERT INTO products (name, description, price, category) VALUES (?, ?, ?, ?)" then
    match params with
    | [JsVal.str n, JsVal.str d, JsVal.num p, JsVal.str c] =>
      (DbResult.insertResult (Int.ofNat st.products.length + 1),
       { st with products := st.products ++ [⟨Int.ofNat st.products.length + 1, n, d, p, c⟩] })
    | _ => (DbResult.writeOk, st)
  else if sql = "DELETE FROM products WHERE id = ?" then
    match params with
    | [JsVal.num i] =>
      (DbResult.writeOk, { st with products := st.products.filter fun p => !(p.id == i) })
    | _ => (DbResult.writeOk, st)
  else if sql = "SELECT * FROM orders WHERE id = ?" then
    match params with
    | [JsVal.num i] => (DbResult.orderRows (st.orders.filter fun o => o.id == i), st)
    | _ => (DbResult.writeOk, st)
  else if sql = "UPDATE orders SET status = ? WHERE id = ?" then
    match params with
    | [JsVal.str s, JsVal.num i] =>
      (DbResult.writeOk,
       { st with orders := st.orders.map fun o => if o.id == i then { o with status := s } else o })
    | _ => (DbResult.writeOk, st)
  else
    (DbResult.writeOk, st)

/-- The combined in-process state threaded through the embedded
operations: the DatabaseManager query-result cache, the per-service
entity caches, the connection liveness and the backing store. -/
structure SysState where
  queryCache : List (String × DbResult)
  userCache : List (Int × UserRow)
  productCache : List (Int × ProductRow)
  categoryCache : List (String × DbResult)
  connected : Bool
  store : Store
deriving DecidableEq

/-- Fresh process state over a given store contents, connected. -/
def initSys (s : Store) : SysState :=
  { queryCache := [], userCache := [], productCache := [], categoryCache := [],
    connected := true, store := s }

namespace DatabaseManager

/-- DatabaseManager.generateCacheKey (line 63): sql text and the
JSON-serialized parameter array, joined by a colon. -/
def generateCacheKey (sql : String) (params : List JsVal) : String :=
  sql ++ ":" ++ serializeParams params

/-- DatabaseManager.clearOldestCacheEntries (lines 57-61): deleting the
first 100 entries of the insertion-ordered map drops its first 100 list
cells. -/
def clearOldestCacheEntries {K V : Type} (m : List (K × V)) : List (K × V) :=
  m.drop 100

/-- The cache-population step of DatabaseManager.query on a cache miss
(lines 49-53): if queryCache.size exceeds 1000 the oldest 100 entries
are evicted, then the new entry is set. -/
def cachePutMiss {K V : Type} [DecidableEq K] (c : List (K × V)) (k : K) (v : V) : List (K × V) :=
  mapSet (if 1000 < c.length then clearOldestCacheEntries c else c) k v

/-- The full cache effect of one DatabaseManager.query call for a key:
a hit (lines 37-40) leaves the cache unchanged, a miss populates it via
cachePutMiss. -/
def cacheInsert {K V : Type} [DecidableEq K] (c : List (K × V)) (k : K) (v : V) : List (K × V) :=
  match mapGet c k with
  | some _ => c
  | none => cachePutMiss c k v

/-- A sequence of query cache insertions, oldest first. -/
def insertAll {K V : Type} [DecidableEq K] (c : List (K × V)) (kvs : List (K × V)) :
    List (K × V) :=
  kvs.foldl (fun acc kv => cacheInsert acc kv.1 kv.2) c

/-- Modelled from the spec: DatabaseManager.query (line 44) calls
this.executeQuery, which is not defined in the JS source file.  Per the
spec, both query primitives require isConnected() and fail with
NotConnectedError otherwise, and bind parameters positionally against
the store. -/
def jsExecuteQuery (connected : Bool) (sql : String) (params : List JsVal) (st : Store) :
    Except Err (DbResult × Store) :=
  if connected then .ok (storeExec sql params st) else .error .notConnected

/-- DatabaseManager.query (lines 35-55): consult the result cache first;
on a miss execute the statement, evict the oldest 100 cache entries if
the cache holds more than 1000, and record the result under the key. -/
def query (st : SysState) (sql : String) (params : List JsVal) :
    Except Err (DbResult × SysState) :=
  match mapGet st.queryCache (generateCacheKey sql params) with
  | some cached => .ok (cached, st)
  | none =>
    match jsExecuteQuery st.connected sql params st.store with
    | .error e => .error e
    | .ok (result, store1) =>
      .ok (result,
        { st with queryCache := cachePutMiss st.queryCache (generateCacheKey sql params) result,
                  store := store1 })

end DatabaseManager


/-- JS truthiness of a possibly-absent string: undefined and the empty
string are falsy. -/
def jsTruthyStr : Option String → Bool
  | none => false
  | some s => !(s = "")

/-- JS truthiness of a possibly-absent number: undefined and 0 are
falsy. -/
def jsTruthyNum : Option Int → Bool
  | none => false
  | some n => !(n = 0)

/-- The JS expression a or-else b for a string field a: falls back to b
when a is undefined or the empty string (falsy-coalescing as written in
the source). -/
def jsOrStr (o : Option String) (dflt : String) : String :=
  match o with
  | some s => if s = "" then dflt else s
  | none => dflt

/-- Fields accepted by UserService.createUser / updateUser; absent
fields are undefined in JS. -/
structure UserData where
  name : Option String := none
  email : Option String := none
  role : Option String := none

namespace UserService

/-- UserService.clearCache (lines 96-99). -/
def clearCache (st : SysState) : SysState := { st with userCache := [] }

/-- UserService.validateEmail (lines 123-126): model of the regex
test against a string of the form one-or-more non-space non-at
characters, an at sign, the same, a dot, the same.  Equivalently: a
single at sign splitting the string into a nonempty whitespace-free
local part and a nonempty whitespace-free domain containing a dot that
is neither its first nor its last character. -/
def validateEmail (email : String) : Bool :=
  match email.splitOn "@" with
  | [a, b] =>
    !(a = "") && a.toList.all (fun c => !c.isWhitespace) &&
    !(b = "") && b.toList.all (fun c => !c.isWhitespace) &&
    ((b.toList.drop 1).dropLast.contains '.')
  | _ => false

/-- UserService.getUser (lines 76-94): entity-cache lookup, then a point
SELECT through DatabaseManager.query; a found row populates the entity
cache; zero rows yield null. -/
def getUser (st : SysState) (id : Int) : Except Err (Option UserRow × SysState) :=
  match mapGet st.userCache id with
  | some u => .ok (some u, st)
  | none =>
    match DatabaseManager.query st "SELECT * FROM users WHERE id = ?" [JsVal.num id] with
    | .error e => .error e
    | .ok (res, st1) =>
      match res with
      | .userRows (u :: _) => .ok (some u, { st1 with userCache := mapSet st1.userCache id u })
      | _ => .ok (none, st1)

/-- UserService.createUser (lines 101-121): required-field and email
validation before any store access, then INSERT and full entity-cache
clear. -/
def createUser (st : SysState) (u : UserData) : Except Err (DbResult × SysState) :=
  if !jsTruthyStr u.name || !jsTruthyStr u.email || !jsTruthyStr u.role then
    .error (.validation "Missing required user fields")
  else if !validateEmail (jsOrStr u.email "") then
    .error (.validation "Invalid email format")
  else
    match DatabaseManager.query st "INSERT INTO users (name, email, role) VALUES (?, ?, ?)"
        [JsVal.str (jsOrStr u.name ""), JsVal.str (jsOrStr u.email ""),
         JsVal.str (jsOrStr u.role "")] with
    | .error e => .error e
    | .ok (res, st1) => .ok (res, clearCache st1)

/-- UserService.updateUser (lines 128-149): fetch existing via getUser,
NotFoundError when absent, falsy-coalescing merge of the provided fields
over the existing row, UPDATE, full entity-cache clear. -/
def updateUser (st : SysState) (id : Int) (u : UserData) : Except Err (DbResult × SysState) :=
  match getUser st id with
  | .error e => .error e
  | .ok (none, _) => .error (.notFound ("User with id " ++ toString id ++ " not found"))
  | .ok (some ex, st1) =>
    match DatabaseManager.query st1 "UPDATE users SET name = ?, email = ?, role = ? WHERE id = ?"
        [JsVal.str (jsOrStr u.name ex.name), JsVal.str (jsOrStr u.email ex.email),
         JsVal.str (jsOrStr u.role ex.role), JsVal.num id] with
    | .error e => .error e
    | .ok (res, st2) => .ok (res, clearCache st2)

/-- UserService.deleteUser (lines 151-165): fetch existing via getUser,
NotFoundError when absent, DELETE, full entity-cache clear. -/
def deleteUser (st : SysState) (id : Int) : Except Err (DbResult × SysState) :=
  match getUser st id with
  | .error e => .error e
  | .ok (none, _) => .error (.notFound ("User with id " ++ toString id ++ " not found"))
  | .ok (some _, st1) =>
    match DatabaseManager.query st1 "DELETE FROM users WHERE id = ?" [JsVal.num id] with
    | .error e => .error e
    | .ok (res, st2) => .ok (res, clearCache st2)

end UserService

/-- Fields accepted by ProductService.createProduct; absent fields are
undefined in JS. -/
structure ProductData where
  name : Option String := none
  description : Option String := none
  price : Option Int := none
  category : Option String := none

namespace ProductService

/-- ProductService.clearCache (lines 288-291): clears both the product
cache and the category cache. -/
def clearCache (st : SysState) : SysState :=
  { st with productCache := [], categoryCache := [] }

/-- ProductService.getProduct (lines 269-286). -/
def getProduct (st : SysState) (id : Int) : Except Err (Option ProductRow × SysState) :=
  match mapGet st.productCache id with
  | some p => .ok (some p, st)
  | none =>
    match DatabaseManager.query st "SELECT * FROM products WHERE id = ?" [JsVal.num id] with
    | .error e => .error e
    | .ok (res, st1) =>
      match res with
      | .productRows (p :: _) =>
        .ok (some p, { st1 with productCache := mapSet st1.productCache id p })
      | _ => .ok (none, st1)

/-- ProductService.createProduct (lines 336-361): the truthiness check
on productData.price means the number 0 is treated as a missing field;
the negative-price check runs only after it. -/
def createProduct (st : SysState) (p : ProductData) : Except Err (DbResult × SysState) :=
  if !jsTruthyStr p.name || !jsTruthyNum p.price || !jsTruthyStr p.category then
    .error (.validation "Missing required product fields")
  else if p.price.getD 0 < 0 then
    .error (.validation "Price cannot be negative")
  else
    match DatabaseManager.query st
        "INSERT INTO products (name, description, price, category) VALUES (?, ?, ?, ?)"
        [JsVal.str (jsOrStr p.name ""), JsVal.str (jsOrStr p.description ""),
         JsVal.num (p.price.getD 0), JsVal.str (jsOrStr p.category "")] with
    | .error e => .error e
    | .ok (res, st1) => .ok (res, clearCache st1)

/-- ProductService.deleteProduct (lines 386-392): issues the DELETE and
clears the caches without any existence check. -/
def deleteProduct (st : SysState) (id : Int) : Except Err (DbResult × SysState) :=
  match DatabaseManager.query st "DELETE FROM products WHERE id = ?" [JsVal.num id] with
  | .error e => .error e
  | .ok (res, st1) => .ok (res, clearCache st1)

end ProductService

/-- The filters argument of ProductService.listProducts; absent fields
are undefined in JS. -/
structure Filters where
  category : Option String := none
  minPrice : Option Int := none
  maxPrice : Option Int := none
  inStock : Bool := false
  sortBy : Option String := none
  sortOrder : Option String := none
  limit : Option Int := none

namespace ProductService

/-- The allow-list of sort columns (line 319). -/
def allowedSorts : List String := ["price", "name", "category"]

/-- Lines 299-302: equality filter on category (truthiness check, value
bound as a parameter). -/
def categoryClause (f : Filters) : String × List JsVal :=
  match f.category with
  | some c => if c = "" then ("", []) else (" AND category = ?", [JsVal.str c])
  | none => ("", [])

/-- Lines 304-307: minPrice is compared against undefined, so 0 counts
as present. -/
def minPriceClause (f : Filters) : String × List JsVal :=
  match f.minPrice with
  | some v => (" AND price >= ?", [JsVal.num v])
  | none => ("", [])

/-- Lines 309-312. -/
def maxPriceClause (f : Filters) : String × List JsVal :=
  match f.maxPrice with
  | some v => (" AND price <= ?", [JsVal.num v])
  | none => ("", [])

/-- Lines 314-316. -/
def stockClause (f : Filters) : String :=
  if f.inStock then " AND stock > 0" else ""

/-- Lines 318-324: a truthy sortBy is checked against the allow-list;
an allow-listed column is interpolated with direction DESC exactly when
sortOrder is the string desc, ASC otherwise; any other sortBy value
adds nothing. -/
def sortClause (f : Filters) : String :=
  match f.sortBy with
  | some s =>
    if s = "" then ""
    else if s ∈ allowedSorts then
      " ORDER BY " ++ s ++ (if f.sortOrder = some "desc" then " DESC" else " ASC")
    else ""
  | none => ""

/-- Lines 326-329: a truthy limit is appended as a bound parameter. -/
def limitClause (f : Filters) : String × List JsVal :=
  match f.limit with
  | some l => if l = 0 then ("", []) else (" LIMIT ?", [JsVal.num l])
  | none => ("", [])

/-- ProductService.listProducts statement construction (lines 293-329):
the statement text and the positional parameter list it is executed
with. -/
def listProductsQuery (f : Filters) : String × List JsVal :=
  ("SELECT * FROM products WHERE 1=1" ++ (categoryClause f).1 ++ (minPriceClause f).1 ++
     (maxPriceClause f).1 ++ stockClause f ++ sortClause f ++ (limitClause f).1,
   (categoryClause f).2 ++ (minPriceClause f).2 ++ (maxPriceClause f).2 ++ (limitClause f).2)

/-- ProductService.listProducts (lines 293-334): executes the built
statement through DatabaseManager.query. -/
def listProducts (st : SysState) (f : Filters) : Except Err (DbResult × SysState) :=
  DatabaseManager.query st (listProductsQuery f).1 (listProductsQuery f).2

end ProductService

/-- A session record (AuthenticationService, lines 202-206). -/
structure Session where
  userId : Int
  createdAt : Nat
  lastActivity : Nat
deriving DecidableEq

namespace AuthenticationService

/-- this.sessionTimeout (line 178): one hour in milliseconds. -/
def sessionTimeout : Nat := 3600000

/-- AuthenticationService.validateToken (lines 239-254): false when the
token is absent; when the idle time exceeds sessionTimeout the session
is removed and false returned; otherwise lastActivity is refreshed to
now and true returned.  Time is the Date.now() value in milliseconds. -/
def validateToken (sessions : List (String × Session)) (token : String) (now : Nat) :
    Bool × List (String × Session) :=
  match mapGet sessions token with
  | none => (false, sessions)
  | some sd =>
    if sessionTimeout < now - sd.lastActivity then
      (false, mapDelete sessions token)
    else
      (true, mapSet sessions token { sd with lastActivity := now })

end AuthenticationService

namespace OrderService

/-- OrderService.getOrder (lines 422-426): a point SELECT through
DatabaseManager.query, returning the first row or undefined. -/
def getOrder (st : SysState) (id : Int) : Except Err (Option OrderRow × SysState) :=
  match DatabaseManager.query st "SELECT * FROM orders WHERE id = ?" [JsVal.num id] with
  | .error e => .error e
  | .ok (res, st1) =>
    match res with
    | .orderRows l => .ok (l.head?, st1)
    | _ => .ok (none, st1)

end OrderService

/-- Outcome of the external charge collaborator (spec section 6). -/
inductive ChargeResult where
  | success (transactionId : String)
  | failure (err : String)
deriving DecidableEq

/-- Outcome returned by processPayment: the structured success or
failure object of lines 446 and 449. -/
inductive PayResult where
  | paid (transactionId : String)
  | failed (err : String)
deriving DecidableEq

namespace PaymentService

/-- PaymentService.chargePayment (lines 452-455): the simulated
processor always succeeds with a timestamp-derived transaction id. -/
def chargePayment (paymentMethod : String) (amount : Int) (now : Nat) : ChargeResult :=
  .success ("TXN" ++ toString now)

/-- PaymentService.updateOrderStatus (lines 457-460) evaluates
this.db.query, but the PaymentService constructor (lines 430-432) sets
only this.orderService and never this.db, so the member access throws a
TypeError at runtime before any statement is issued. -/
def updateOrderStatus (st : SysState) (orderId : Int) (status : String) :
    Except Err (DbResult × SysState) :=
  .error (.typeError "this.db is undefined")

/-- PaymentService.processPayment (lines 434-450), with the charge
collaborator abstracted as a function argument (the source calls
this.chargePayment): NotFoundError when the order is absent; on a
successful charge it calls updateOrderStatus and then returns the
success object; on a failed charge it returns the structured failure
object. -/
def processPayment (charge : String → Int → ChargeResult) (st : SysState) (orderId : Int)
    (paymentMethod : String) : Except Err (PayResult × SysState) :=
  match OrderService.getOrder st orderId with
  | .error e => .error e
  | .ok (none, _) => .error (.notFound "Order not found")
  | .ok (some o, st1) =>
    match charge paymentMethod o.total with
    | .success tx =>
      match updateOrderStatus st1 orderId "paid" with
      | .error e => .error e
      | .ok (_, st2) => .ok (.paid tx, st2)
    | .failure e => .ok (.failed e, st1)

/-- processPayment wired to the charge collaborator the source defines
(chargePayment, which needs the current time for its transaction id). -/
def processPaymentSrc (now : Nat) (st : SysState) (orderId : Int) (paymentMethod : String) :
    Except Err (PayResult × SysState) :=
  processPayment (fun m a => chargePayment m a now) st orderId paymentMethod

end PaymentService

/-- Observable trace of a connect() run: how many connection attempts
were made and which backoff delays (in ms) were slept between
consecutive attempts. -/
structure ConnectTrace where
  tried : Nat
  delays : List Nat
deriving DecidableEq

/-- Outcome of the JS DatabaseManager.connect (lines 14-29). -/
inductive JsConnectResult where
  | connected (t : ConnectTrace)
  | threw (e : String) (t : ConnectTrace)
  | gaveUp (t : ConnectTrace)
deriving DecidableEq

/-- Outcome of the Java DatabaseManager.connect (lines 543-572): it
never throws; when every attempt fails it logs and returns normally
with the connection still unset. -/
inductive JavaConnectResult where
  | connected (t : ConnectTrace)
  | returnedDisconnected (lastErr : Option String) (t : ConnectTrace)
deriving DecidableEq

namespace DatabaseManager

/-- The retry loop of the JS connect (lines 16-28).  establish gives
the outcome of each attempt (indexed from 0); fuel is the remaining
number of loop iterations, kept equal to retryAttempts minus attempts
so that the while condition attempts less-than retryAttempts is fuel
being positive.  After a failure the attempt counter is incremented;
when it reaches retryAttempts the last error is rethrown, otherwise the
loop sleeps 1000 times the incremented counter and retries. -/
def connectGo (establish : Nat → Except String Unit) (retry : Nat) :
    Nat → Nat → List Nat → JsConnectResult
  | 0, tried, delays => .gaveUp ⟨tried, delays⟩
  | fuel + 1, tried, delays =>
    match establish tried with
    | .ok _ => .connected ⟨tried + 1, delays⟩
    | .error e =>
      if retry ≤ tried + 1 then .threw e ⟨tried + 1, delays⟩
      else connectGo establish retry fuel (tried + 1) (delays ++ [1000 * (tried + 1)])

/-- DatabaseManager.connect of the JS variant (lines 14-29). -/
def connect (establish : Nat → Except String Unit) (retry : Nat) : JsConnectResult :=
  connectGo establish retry retry 0 []

end DatabaseManager

namespace JavaDatabaseManager

/-- The Java statement cache (maxCacheSize 100), modelled by the cached
statement texts in insertion order. -/
def clearOldestStatements (c : List String) : List String := c.drop 25

/-- Java getPreparedStatement (lines 649-658): on a miss, evict
maxCacheSize / 4 entries first when the cache is at capacity, then
insert.  The HashMap iteration order is modelled as insertion order. -/
def getPreparedStatement (c : List String) (sql : String) : List String :=
  if sql ∈ c then c
  else (if 100 ≤ c.length then clearOldestStatements c else c) ++ [sql]

/-- Connection-manager state of the Java variant: liveness (the
isConnected probe outcome), the prepared-statement cache, and the
store. -/
structure JavaDBState where
  connected : Bool
  statementCache : List String
  store : Store
deriving DecidableEq

/-- Java executeQuery (lines 613-629): fails when not connected before
touching the store; otherwise resolves the statement handle through the
bounded cache and executes with positionally bound parameters. -/
def executeQuery (db : JavaDBState) (sql : String) (params : List JsVal) :
    Except Err (DbResult × JavaDBState) :=
  if db.connected then
    .ok ((storeExec sql params db.store).1,
      { db with statementCache := getPreparedStatement db.statementCache sql,
                store := (storeExec sql params db.store).2 })
  else .error .notConnected

/-- Java executeUpdate (lines 631-647): same contract as executeQuery
for the connection check, statement cache and positional binding. -/
def executeUpdate (db : JavaDBState) (sql : String) (params : List JsVal) :
    Except Err (DbResult × JavaDBState) :=
  if db.connected then
    .ok ((storeExec sql params db.store).1,
      { db with statementCache := getPreparedStatement db.statementCache sql,
                store := (storeExec sql params db.store).2 })
  else .error .notConnected

/-- The retry loop of the Java connect (lines 543-572): on failure the
attempt counter is incremented and the exception recorded; the loop
sleeps 1000 times the counter only when another attempt remains; when
the attempts are exhausted the method logs and returns normally. -/
def connectGo (establish : Nat → Except String Unit) (retry : Nat) :
    Nat → Nat → List Nat → Option String → JavaConnectResult
  | 0, tried, delays, lastE => .returnedDisconnected lastE ⟨tried, delays⟩
  | fuel + 1, tried, delays, _ =>
    match establish tried with
    | .ok _ => .connected ⟨tried + 1, delays⟩
    | .error e =>
      if tried + 1 < retry then
        connectGo establish retry fuel (tried + 1) (delays ++ [1000 * (tried + 1)]) (some e)
      else .returnedDisconnected (some e) ⟨tried + 1, delays⟩

/-- DatabaseManager.connect of the Java variant (lines 543-572). -/
def connect (establish : Nat → Except String Unit) (retry : Nat) : JavaConnectResult :=
  connectGo establish retry retry 0 [] none

end JavaDatabaseManager

/-- The users table for the stale-read trace: one user, id 1. -/
def c1store : Store :=
  { users := [⟨1, "alice", "a@b.c", "user"⟩], products := [], orders := [] }

/-- The trace getUser(1); updateUser(1, name bob); getUser(1) starting
from a fresh connected process over c1store, returning what the final
getUser yields together with the users table at that point. -/
def c1run : Except Err (Option UserRow × List UserRow) :=
  match UserService.getUser (initSys c1store) 1 with
  | .error e => .error e
  | .ok (_, st1) =>
    match UserService.updateUser st1 1 { name := some "bob" } with
    | .error e => .error e
    | .ok (_, st2) =>
      match UserService.getUser st2 1 with
      | .error e => .error e
      | .ok (r, st3) => .ok (r, st3.store.users)

/-- The attempt outcomes for the connect traces: every attempt fails,
with a distinct message per attempt so the reported error is visibly
the last one. -/
def c6est : Nat → Except String Unit :=
  fun n => .error (if n = 0 then "e0" else if n = 1 then "e1" else "e2")

/-- The orders table for the payment trace: one pending order, id 1. -/
def c7store : Store :=
  { users := [], products := [], orders := [⟨1, 10, 100, "pending"⟩] }

/-- A disconnected process whose query-result cache already holds an
entry for the statement SELECT 1 with empty parameters. -/
def c5cachedSt : SysState :=
  { queryCache := [(DatabaseManager.generateCacheKey "SELECT 1" [], DbResult.writeOk)],
    userCache := [], productCache := [], categoryCache := [], connected := false,
    store := emptyStore }

def c10sql : String := "DELETE FROM users WHERE id = ?"

def c10ps : List JsVal := [JsVal.num 1]

/-- The state after one successful run of the DELETE statement from a
fresh connected process. -/
def c10st1 : SysState :=
  match DatabaseManager.query (initSys emptyStore) c10sql c10ps with
  | .ok p => p.2
  | .error _ => initSys emptyStore

/-- A disconnected Java connection-manager state. -/
def c5db0 : JavaDatabaseManager.JavaDBState :=
  { connected := false, statementCache := [], store := emptyStore }

/-- A disconnected JS process with an empty query-result cache. -/
def c5st0 : SysState :=
  { queryCache := [], userCache := [], productCache := [], categoryCache := [],
    connected := false, store := emptyStore }

/-- A session store with one session for token tok, last active at
time 0. -/
def c8ss : List (String × Session) := [("tok", ⟨7, 0, 0⟩)]

/-- Whether the pattern is a prefix of the text, on character lists. -/
def startsWithL : List Char → List Char → Bool
  | [], _ => true
  | _ :: _, [] => false
  | p :: ps, c :: cs => p == c && startsWithL ps cs

/-- Whether the pattern occurs as a contiguous substring of the text. -/
def containsSub (pat : List Char) : List Char → Bool
  | [] => startsWithL pat []
  | c :: ts => startsWithL pat (c :: ts) || containsSub pat ts

/-- Two filter records that agree on the presence (JS truthiness) of
every value-carrying field and on the sort fields produce the same
statement text: the filter values themselves are never concatenated
into the statement. -/
def samePresence (f g : Filters) : Prop :=
  jsTruthyStr f.category = jsTruthyStr g.category ∧
  f.minPrice.isSome = g.minPrice.isSome ∧
  f.maxPrice.isSome = g.maxPrice.isSome ∧
  f.inStock = g.inStock ∧
  f.sortBy = g.sortBy ∧
  f.sortOrder = g.sortOrder ∧
  jsTruthyNum f.limit = jsTruthyNum g.limit

/-- The injection attempt of spec section 8.8. -/
def c9f0 : Filters :=
  { category := some "electronics", sortBy := some "; DROP TABLE products", limit := some 5 }

/-- 1001 distinct cache keys, paired with arbitrary values. -/
def c2input : List (Nat × Nat) := (List.range 1001).map fun i => (i, 0)

theorem mapGet_mapSet {K V : Type} [DecidableEq K] (m : List (K × V)) (k : K) (v : V) :
    mapGet (mapSet m k v) k = some v := by
  induction m with
  | nil => simp [mapSet, mapGet]
  | cons kv t ih =>
    obtain ⟨k1, v1⟩ := kv
    by_cases h : k1 = k
    · simp [mapSet, mapGet, h]
    · simp [mapSet, mapGet, h, ih]

theorem mapGet_mapDelete {K V : Type} [DecidableEq K] (m : List (K × V)) (k : K) :
    mapGet (mapDelete m k) k = none := by
  induction m with
  | nil => simp [mapDelete, mapGet]
  | cons kv t ih =>
    obtain ⟨k1, v1⟩ := kv
    by_cases h : k1 = k
    · simpa [mapDelete, mapGet, h] using ih
    · simpa [mapDelete, mapGet, h] using ih

theorem mapGet_eq_none_iff {K V : Type} [DecidableEq K] (m : List (K × V)) (k : K) :
    mapGet m k = none ↔ k ∉ keysOf m := by
  induction m with
  | nil => simp [mapGet, keysOf]
  | cons kv t ih =>
    obtain ⟨k1, v1⟩ := kv
    by_cases h : k1 = k
    · simp [mapGet, keysOf, h]
    · simp [mapGet, keysOf, h, ih, Ne.symm h]

theorem mapSet_of_not_mem {K V : Type} [DecidableEq K] (m : List (K × V)) (k : K) (v : V)
    (h : k ∉ keysOf m) : mapSet m k v = m ++ [(k, v)] := by
  induction m with
  | nil => simp [mapSet]
  | cons kv t ih =>
    obtain ⟨k1, v1⟩ := kv
    simp only [keysOf, List.map_cons, List.mem_cons] at h
    push_neg at h
    simp [mapSet, Ne.symm h.1, ih (by simpa [keysOf] using h.2)]

/-! Claim theorems. -/


/-- Claim C1, evaluated at the failing input: after getUser(1) has
populated DatabaseManager.queryCache and updateUser(1, name bob) has
merged and written the row (the store now holds bob) while clearing
only the entity cache, the immediately following getUser(1) returns the
pre-update row (name alice) straight from the query-result cache, so
the write paths do not invalidate the query-result cache consulted on
the read path and get serves a pre-update cached value. -/
theorem c1_get_after_update_serves_stale_query_cache :
    c1run = .ok (some ⟨1, "alice", "a@b.c", "user"⟩, [⟨1, "bob", "a@b.c", "user"⟩]) := by
  decide

/-- Claim C4, evaluated at the failing input: createProduct with name
Widget, price 0 and category tools is rejected as Missing required
product fields, because the truthiness check on productData.price
treats the number 0 as absent, although price 0 is present and
non-negative; the same call with price 10 passes validation and reaches
the INSERT. -/
theorem c4_createProduct_rejects_price_zero :
    ProductService.createProduct (initSys emptyStore)
        { name := some "Widget", price := some 0, category := some "tools" } =
      .error (.validation "Missing required product fields") ∧
    Except.map Prod.fst (ProductService.createProduct (initSys emptyStore)
        { name := some "Widget", price := some 10, category := some "tools" }) =
      .ok (DbResult.insertResult 1) := by
  constructor
  · decide
  · decide


/-- Claim C6, evaluated at the failing input: with every establishment
attempt failing and retryAttempts 3, the JS connect makes exactly 3
attempts with backoff delays 1000 and 2000 ms and throws the last
underlying error, as the claim states; the Java variant makes the same
3 attempts with the same delays but then logs and returns normally with
the connection still unset instead of failing with ConnectionError. -/
theorem c6_java_connect_returns_normally_after_exhausting_retries :
    DatabaseManager.connect c6est 3 = .threw "e2" ⟨3, [1000, 2000]⟩ ∧
    JavaDatabaseManager.connect c6est 3 =
      .returnedDisconnected (some "e2") ⟨3, [1000, 2000]⟩ := by
  constructor
  · decide
  · decide


/-- Claim C7, evaluated at the failing input: with order 1 present and
the built-in always-successful chargePayment collaborator,
processPayment(1, card) raises a TypeError instead of transitioning the
order to paid and returning the success object, because the
PaymentService constructor never sets this.db and updateOrderStatus
dereferences it; the absent-order branch does fail with NotFoundError,
and an externally failing charge does return the structured failure
object. -/
theorem c7_processPayment_success_path_hits_undefined_db :
    Except.map Prod.fst (PaymentService.processPaymentSrc 0 (initSys c7store) 1 "card") =
      .error (.typeError "this.db is undefined") ∧
    Except.map Prod.fst (PaymentService.processPaymentSrc 0 (initSys c7store) 2 "card") =
      .error (.notFound "Order not found") ∧
    Except.map Prod.fst (PaymentService.processPayment (fun _ _ => .failure "declined")
        (initSys c7store) 1 "card") =
      .ok (PayResult.failed "declined") := by
  refine ⟨by decide, by decide, by decide⟩


/-- Counterexample to claim C5 as stated: a query call made while the
connection manager is not connected does not fail with
NotConnectedError when its key is already in the query-result cache;
the JS DatabaseManager.query consults the cache before any connectivity
check and returns the cached result. -/
theorem c5_disconnected_query_served_from_cache :
    DatabaseManager.query c5cachedSt "SELECT 1" [] = .ok (DbResult.writeOk, c5cachedSt) := by
  decide

/-- Counterexample to claim C3 as stated: ProductService.deleteProduct
on an id absent from the store (the store is empty) is a silent
success, not a NotFoundError; it issues the DELETE without any
existence check. -/
theorem c3_deleteProduct_silent_success_on_absent_id :
    Except.map Prod.fst (ProductService.deleteProduct (initSys emptyStore) 42) =
      .ok DbResult.writeOk := by
  decide

theorem storeExec_selectUser (i : Int) (st : Store) :
    storeExec "SELECT * FROM users WHERE id = ?" [JsVal.num i] st =
      (DbResult.userRows (st.users.filter fun u => u.id == i), st) := rfl

theorem storeExec_deleteProduct (i : Int) (st : Store) :
    storeExec "DELETE FROM products WHERE id = ?" [JsVal.num i] st =
      (DbResult.writeOk, { st with products := st.products.filter fun p => !(p.id == i) }) := rfl

/-- Claim C3 (amended): UserService.deleteUser of an id absent from the
store fails with NotFoundError (after fetching via getUser) and is
never a silent success, but this does not hold for every entity type:
ProductService.deleteProduct performs no existence check and silently
succeeds on an absent id, its DELETE affecting zero rows. -/
theorem c3_deleteUser_notFound_deleteProduct_no_check :
    ∀ (store : Store) (id : Int), (∀ u ∈ store.users, u.id ≠ id) →
      UserService.deleteUser (initSys store) id =
        .error (.notFound ("User with id " ++ toString id ++ " not found")) ∧
      Except.map Prod.fst (ProductService.deleteProduct (initSys store) id) =
        .ok DbResult.writeOk := by
  intro store id h
  have hfil : store.users.filter (fun u => u.id == id) = [] := by
    rw [List.filter_eq_nil_iff]
    intro u hu
    simpa using h u hu
  constructor
  · simp [UserService.deleteUser, UserService.getUser, DatabaseManager.query,
      DatabaseManager.jsExecuteQuery, initSys, mapGet, storeExec_selectUser, hfil]
  · simp [ProductService.deleteProduct, DatabaseManager.query,
      DatabaseManager.jsExecuteQuery, initSys, mapGet, storeExec_deleteProduct, Except.map]

/-- Witness for the amended claim C3 at the empty store and id 7. -/
theorem c3_deleteUser_notFound_deleteProduct_no_check_witness :
    UserService.deleteUser (initSys emptyStore) 7 =
      .error (.notFound ("User with id " ++ toString (7 : Int) ++ " not found")) ∧
    Except.map Prod.fst (ProductService.deleteProduct (initSys emptyStore) 7) =
      .ok DbResult.writeOk :=
  c3_deleteUser_notFound_deleteProduct_no_check emptyStore 7 (by
    intro u hu
    simp [emptyStore] at hu)

/-- Claim C10: DatabaseManager.query caches every statement result
under the key built from the exact SQL text and the JSON-serialized
parameter list, reads and writes alike; a second call whose key is
already cached (in particular any call repeating a successful one with
identical sql and params) returns the previously recorded result and
leaves the whole state, store included, untouched — so repeating an
identical INSERT, UPDATE or DELETE through this path has no store
effect the second time. -/
theorem c10_repeated_query_is_cache_hit :
    ∀ (st : SysState) (sql : String) (ps : List JsVal) (r : DbResult) (st1 : SysState),
      DatabaseManager.query st sql ps = .ok (r, st1) →
      DatabaseManager.query st1 sql ps = .ok (r, st1) := by
  intro st sql ps r st1 h
  unfold DatabaseManager.query at h ⊢
  cases hm : mapGet st.queryCache (DatabaseManager.generateCacheKey sql ps) with
  | some cached =>
    rw [hm] at h
    obtain ⟨h1, h2⟩ : cached = r ∧ st = st1 := by
      simpa using h
    subst h1
    subst h2
    rw [hm]
  | none =>
    rw [hm] at h
    unfold DatabaseManager.jsExecuteQuery at h
    cases hc : st.connected with
    | false => simp [hc] at h
    | true =>
      rw [hc] at h
      simp only [if_true] at h
      obtain ⟨h1, h2⟩ :
          (storeExec sql ps st.store).1 = r ∧
          ({ queryCache := DatabaseManager.cachePutMiss st.queryCache
                (DatabaseManager.generateCacheKey sql ps) (storeExec sql ps st.store).1,
             userCache := st.userCache, productCache := st.productCache,
             categoryCache := st.categoryCache, connected := true,
             store := (storeExec sql ps st.store).2 } : SysState) = st1 := by
        simpa using h
      subst h1
      subst h2
      simp [DatabaseManager.cachePutMiss, mapGet_mapSet]

/-- Witness for claim C10: repeating the identical DELETE immediately
after a successful run returns the cached result and leaves the state
unchanged. -/
theorem c10_repeated_query_is_cache_hit_witness :
    DatabaseManager.query c10st1 c10sql c10ps = .ok (DbResult.writeOk, c10st1) :=
  c10_repeated_query_is_cache_hit (initSys emptyStore) c10sql c10ps DbResult.writeOk c10st1
    (by decide)

/-- Claim C5 (amended): the Java variant behaves as claimed — both
executeQuery and executeUpdate fail with NotConnectedError while
isConnected() is false, never reaching the store, and when connected
proceed against the store with the positionally bound parameter list —
but the JS DatabaseManager.query consults its result cache before any
connectivity check, so while disconnected it fails with
NotConnectedError without reaching the store only when the key misses
the cache (a cached key is served from the cache, see the
counterexample). -/
theorem c5_connection_checks :
    ∀ (db : JavaDatabaseManager.JavaDBState) (sql : String) (ps : List JsVal),
      (db.connected = false →
        JavaDatabaseManager.executeQuery db sql ps = .error .notConnected ∧
        JavaDatabaseManager.executeUpdate db sql ps = .error .notConnected) ∧
      (db.connected = true →
        JavaDatabaseManager.executeQuery db sql ps =
          .ok ((storeExec sql ps db.store).1,
            { db with
                statementCache := JavaDatabaseManager.getPreparedStatement db.statementCache sql,
                store := (storeExec sql ps db.store).2 }) ∧
        JavaDatabaseManager.executeUpdate db sql ps =
          .ok ((storeExec sql ps db.store).1,
            { db with
                statementCache := JavaDatabaseManager.getPreparedStatement db.statementCache sql,
                store := (storeExec sql ps db.store).2 })) ∧
      (∀ st : SysState, st.connected = false →
        mapGet st.queryCache (DatabaseManager.generateCacheKey sql ps) = none →
        DatabaseManager.query st sql ps = .error .notConnected) := by
  intro db sql ps
  refine ⟨?_, ?_, ?_⟩
  · intro hc
    constructor
    · simp [JavaDatabaseManager.executeQuery, hc]
    · simp [JavaDatabaseManager.executeUpdate, hc]
  · intro hc
    constructor
    · simp [JavaDatabaseManager.executeQuery, hc]
    · simp [JavaDatabaseManager.executeUpdate, hc]
  · intro st hc hm
    simp [DatabaseManager.query, DatabaseManager.jsExecuteQuery, hc, hm]

/-- Witness for the amended claim C5 at a concrete disconnected state
and statement. -/
theorem c5_connection_checks_witness :
    JavaDatabaseManager.executeQuery c5db0 "SELECT 1" [] = .error .notConnected ∧
    JavaDatabaseManager.executeUpdate c5db0 "SELECT 1" [] = .error .notConnected ∧
    DatabaseManager.query c5st0 "SELECT 1" [] = .error .notConnected :=
  ⟨((c5_connection_checks c5db0 "SELECT 1" []).1 rfl).1,
   ((c5_connection_checks c5db0 "SELECT 1" []).1 rfl).2,
   (c5_connection_checks c5db0 "SELECT 1" []).2.2 c5st0 rfl (by decide)⟩

/-- Claim C8: validateToken returns false when the token is absent;
when the idle time exceeds sessionTimeout it removes the session and
returns false; otherwise it refreshes lastActivity to the current time
and returns true.  Consequently a session validated at time T with
timeout W is, absent intervening operations, still valid at any time
before T + W and invalid (and removed) at any time after T + W — a
sliding-window lifetime. -/
theorem c8_validateToken_sliding_window :
    ∀ (ss : List (String × Session)) (tok : String) (T : Nat),
      (mapGet ss tok = none →
        AuthenticationService.validateToken ss tok T = (false, ss)) ∧
      (∀ sd, mapGet ss tok = some sd →
        AuthenticationService.sessionTimeout < T - sd.lastActivity →
        AuthenticationService.validateToken ss tok T = (false, mapDelete ss tok)) ∧
      (∀ sd, mapGet ss tok = some sd →
        T - sd.lastActivity ≤ AuthenticationService.sessionTimeout →
        AuthenticationService.validateToken ss tok T =
          (true, mapSet ss tok { sd with lastActivity := T })) ∧
      ((AuthenticationService.validateToken ss tok T).1 = true → ∀ t : Nat,
        (t < T + AuthenticationService.sessionTimeout →
          (AuthenticationService.validateToken
            (AuthenticationService.validateToken ss tok T).2 tok t).1 = true) ∧
        (T + AuthenticationService.sessionTimeout < t →
          (AuthenticationService.validateToken
            (AuthenticationService.validateToken ss tok T).2 tok t).1 = false ∧
          mapGet (AuthenticationService.validateToken
            (AuthenticationService.validateToken ss tok T).2 tok t).2 tok = none)) := by
  intro ss tok T
  refine ⟨?_, ?_, ?_, ?_⟩
  · intro hm
    simp [AuthenticationService.validateToken, hm]
  · intro sd hm hexp
    simp [AuthenticationService.validateToken, hm, hexp]
  · intro sd hm hfresh
    simp [AuthenticationService.validateToken, hm, Nat.not_lt.mpr hfresh]
  · intro hv t
    cases hm : mapGet ss tok with
    | none => simp [AuthenticationService.validateToken, hm] at hv
    | some sd =>
      by_cases hexp : AuthenticationService.sessionTimeout < T - sd.lastActivity
      · simp [AuthenticationService.validateToken, hm, hexp] at hv
      · have hres : AuthenticationService.validateToken ss tok T =
            (true, mapSet ss tok { sd with lastActivity := T }) := by
          simp [AuthenticationService.validateToken, hm, hexp]
        rw [hres]
        have hget := mapGet_mapSet ss tok { sd with lastActivity := T }
        constructor
        · intro hlt
          have hne : ¬ AuthenticationService.sessionTimeout < t - T := by omega
          simp [AuthenticationService.validateToken, hget, hne]
        · intro hgt
          have hx : AuthenticationService.sessionTimeout < t - T := by omega
          refine ⟨?_, ?_⟩
          · simp [AuthenticationService.validateToken, hget, hx]
          · simp [AuthenticationService.validateToken, hget, hx, mapGet_mapDelete]


/-- Witness for claim C8: the session validates at time 100, is still
valid at time 200 (before 100 plus the timeout), and is invalid at time
3700101 (after 100 plus the timeout of 3600000). -/
theorem c8_validateToken_sliding_window_witness :
    (AuthenticationService.validateToken c8ss "tok" 100).1 = true ∧
    (AuthenticationService.validateToken
      (AuthenticationService.validateToken c8ss "tok" 100).2 "tok" 200).1 = true ∧
    (AuthenticationService.validateToken
      (AuthenticationService.validateToken c8ss "tok" 100).2 "tok" 3700101).1 = false := by
  refine ⟨by decide, ?_, ?_⟩
  · exact ((c8_validateToken_sliding_window c8ss "tok" 100).2.2.2 (by decide) 200).1 (by decide)
  · exact (((c8_validateToken_sliding_window c8ss "tok" 100).2.2.2 (by decide) 3700101).2
      (by decide)).1

theorem startsWithL_subset (pat t : List Char) (h : startsWithL pat t = true) :
    ∀ c ∈ pat, c ∈ t := by
  induction pat generalizing t with
  | nil => simp
  | cons p ps ih =>
    cases t with
    | nil => simp [startsWithL] at h
    | cons c cs =>
      simp only [startsWithL, Bool.and_eq_true, beq_iff_eq] at h
      intro x hx
      rcases List.mem_cons.mp hx with rfl | hx
      · simp [h.1]
      · exact List.mem_cons_of_mem _ (ih cs h.2 x hx)

theorem containsSub_subset (pat t : List Char) (h : containsSub pat t = true) :
    ∀ c ∈ pat, c ∈ t := by
  induction t with
  | nil => exact startsWithL_subset pat [] h
  | cons c cs ih =>
    simp only [containsSub, Bool.or_eq_true] at h
    rcases h with h | h
    · exact startsWithL_subset _ _ h
    · intro x hx
      exact List.mem_cons_of_mem _ (ih h x hx)

/-- Every statement fragment listProducts can emit without a sort
clause; none of them contains the character B, so no concatenation of
them can contain the text ORDER BY. -/
theorem notB_fragment (s : String)
    (h : s = "" ∨ s = "SELECT * FROM products WHERE 1=1" ∨ s = " AND category = ?" ∨
      s = " AND price >= ?" ∨ s = " AND price <= ?" ∨ s = " AND stock > 0" ∨ s = " LIMIT ?") :
    'B' ∉ s.data := by
  rcases h with rfl | rfl | rfl | rfl | rfl | rfl | rfl <;> decide

theorem categoryClause_cases (f : Filters) :
    (ProductService.categoryClause f).1 = "" ∨
    (ProductService.categoryClause f).1 = " AND category = ?" := by
  unfold ProductService.categoryClause
  cases hfc : f.category with
  | none => exact Or.inl rfl
  | some c =>
    by_cases hc : c = ""
    · exact Or.inl (by simp [hc])
    · exact Or.inr (by simp [hc])

theorem minPriceClause_cases (f : Filters) :
    (ProductService.minPriceClause f).1 = "" ∨
    (ProductService.minPriceClause f).1 = " AND price >= ?" := by
  unfold ProductService.minPriceClause
  cases hfc : f.minPrice with
  | none => exact Or.inl rfl
  | some v => exact Or.inr rfl

theorem maxPriceClause_cases (f : Filters) :
    (ProductService.maxPriceClause f).1 = "" ∨
    (ProductService.maxPriceClause f).1 = " AND price <= ?" := by
  unfold ProductService.maxPriceClause
  cases hfc : f.maxPrice with
  | none => exact Or.inl rfl
  | some v => exact Or.inr rfl

theorem stockClause_cases (f : Filters) :
    ProductService.stockClause f = "" ∨ ProductService.stockClause f = " AND stock > 0" := by
  unfold ProductService.stockClause
  by_cases hs : f.inStock
  · exact Or.inr (by simp [hs])
  · exact Or.inl (by simp [hs])

theorem limitClause_cases (f : Filters) :
    (ProductService.limitClause f).1 = "" ∨ (ProductService.limitClause f).1 = " LIMIT ?" := by
  unfold ProductService.limitClause
  cases hfc : f.limit with
  | none => exact Or.inl rfl
  | some l =>
    by_cases hl : l = 0
    · exact Or.inl (by simp [hl])
    · exact Or.inr (by simp [hl])

/-- Without a sort clause, the built statement text never contains the
character B, hence never the text ORDER BY. -/
theorem notB_listProductsQuery (f : Filters) (h0 : ProductService.sortClause f = "") :
    'B' ∉ (ProductService.listProductsQuery f).1.data := by
  unfold ProductService.listProductsQuery
  rw [h0]
  intro hmem
  simp only [String.data_append, List.mem_append] at hmem
  rcases hmem with ((((((h | h) | h) | h) | h) | h) | h)
  · exact notB_fragment _ (Or.inr (Or.inl rfl)) h
  · exact notB_fragment _ ((categoryClause_cases f).imp id (fun hh =>
      Or.inr (Or.inl hh))) h
  · exact notB_fragment _ ((minPriceClause_cases f).imp id (fun hh =>
      Or.inr (Or.inr (Or.inl hh)))) h
  · exact notB_fragment _ ((maxPriceClause_cases f).imp id (fun hh =>
      Or.inr (Or.inr (Or.inr (Or.inl hh))))) h
  · exact notB_fragment _ ((stockClause_cases f).imp id (fun hh =>
      Or.inr (Or.inr (Or.inr (Or.inr (Or.inl hh)))))) h
  · simp at h
  · exact notB_fragment _ ((limitClause_cases f).imp id (fun hh =>
      Or.inr (Or.inr (Or.inr (Or.inr (Or.inr hh)))))) h


theorem categoryClause_sql_presence (f g : Filters)
    (h : jsTruthyStr f.category = jsTruthyStr g.category) :
    (ProductService.categoryClause f).1 = (ProductService.categoryClause g).1 := by
  unfold ProductService.categoryClause
  cases hf : f.category with
  | none =>
    cases hg : g.category with
    | none => rfl
    | some d =>
      rw [hf, hg] at h
      simp [jsTruthyStr] at h
      simp [h]
  | some c =>
    cases hg : g.category with
    | none =>
      rw [hf, hg] at h
      simp [jsTruthyStr] at h
      simp [h]
    | some d =>
      rw [hf, hg] at h
      simp only [jsTruthyStr] at h
      by_cases hc : c = ""
      · have hd : d = "" := by simpa [hc] using h.symm
        simp [hc, hd]
      · have hd : ¬ d = "" := by
          intro hd0
          rw [hd0] at h
          simp [hc] at h
        simp [hc, hd]

theorem minPriceClause_sql_presence (f g : Filters)
    (h : f.minPrice.isSome = g.minPrice.isSome) :
    (ProductService.minPriceClause f).1 = (ProductService.minPriceClause g).1 := by
  unfold ProductService.minPriceClause
  cases hf : f.minPrice with
  | none => cases hg : g.minPrice with
    | none => rfl
    | some d => rw [hf, hg] at h; simp at h
  | some c => cases hg : g.minPrice with
    | none => rw [hf, hg] at h; simp at h
    | some d => rfl

theorem maxPriceClause_sql_presence (f g : Filters)
    (h : f.maxPrice.isSome = g.maxPrice.isSome) :
    (ProductService.maxPriceClause f).1 = (ProductService.maxPriceClause g).1 := by
  unfold ProductService.maxPriceClause
  cases hf : f.maxPrice with
  | none => cases hg : g.maxPrice with
    | none => rfl
    | some d => rw [hf, hg] at h; simp at h
  | some c => cases hg : g.maxPrice with
    | none => rw [hf, hg] at h; simp at h
    | some d => rfl

theorem sortClause_presence (f g : Filters) (h5 : f.sortBy = g.sortBy)
    (h6 : f.sortOrder = g.sortOrder) :
    ProductService.sortClause f = ProductService.sortClause g := by
  unfold ProductService.sortClause
  rw [h5, h6]

theorem limitClause_sql_presence (f g : Filters)
    (h : jsTruthyNum f.limit = jsTruthyNum g.limit) :
    (ProductService.limitClause f).1 = (ProductService.limitClause g).1 := by
  unfold ProductService.limitClause
  cases hf : f.limit with
  | none =>
    cases hg : g.limit with
    | none => rfl
    | some d =>
      rw [hf, hg] at h
      simp [jsTruthyNum] at h
      simp [h]
  | some c =>
    cases hg : g.limit with
    | none =>
      rw [hf, hg] at h
      simp [jsTruthyNum] at h
      simp [h]
    | some d =>
      rw [hf, hg] at h
      simp only [jsTruthyNum] at h
      by_cases hc : c = 0
      · have hd : d = 0 := by simpa [hc] using h.symm
        simp [hc, hd]
      · have hd : ¬ d = 0 := by
          intro hd0
          rw [hd0] at h
          simp [hc] at h
        simp [hc, hd]

/-- Claim C9: when filters.sortBy is not in the allow-list the
constructed statement is exactly the one built with no sortBy at all
(the raw string is never interpolated); a statement built without a
sort carries no ORDER BY text; an allow-listed sortBy yields a sort
clause whose direction is DESC exactly when sortOrder is desc and ASC
otherwise; the parameter list is exactly the category, minPrice,
maxPrice and limit values bound positionally in that order; and the
statement text depends only on which filters are present, never on
their values. -/
theorem c9_listProducts_sort_allow_list (f : Filters) :
    (∀ s, f.sortBy = some s → s ∉ ProductService.allowedSorts →
      ProductService.listProductsQuery f =
        ProductService.listProductsQuery { f with sortBy := none }) ∧
    (f.sortBy = none →
      containsSub ("ORDER BY".data) (ProductService.listProductsQuery f).1.data = false) ∧
    (∀ s, f.sortBy = some s → s ∈ ProductService.allowedSorts →
      ProductService.sortClause f =
        " ORDER BY " ++ s ++ (if f.sortOrder = some "desc" then " DESC" else " ASC")) ∧
    ((ProductService.listProductsQuery f).2 =
      (ProductService.categoryClause f).2 ++ (ProductService.minPriceClause f).2 ++
      (ProductService.maxPriceClause f).2 ++ (ProductService.limitClause f).2) ∧
    (∀ g, samePresence f g →
      (ProductService.listProductsQuery f).1 = (ProductService.listProductsQuery g).1) := by
  refine ⟨?_, ?_, ?_, rfl, ?_⟩
  · intro s hs hn
    have hsort : ProductService.sortClause f = "" := by
      unfold ProductService.sortClause
      rw [hs]
      by_cases hse : s = ""
      · simp [hse]
      · simp [hse, hn]
    have hsort2 : ProductService.sortClause { f with sortBy := none } = "" := rfl
    unfold ProductService.listProductsQuery
    rw [hsort, hsort2]
    rfl
  · intro h0
    have hsort : ProductService.sortClause f = "" := by
      unfold ProductService.sortClause
      rw [h0]
    cases hcs : containsSub ("ORDER BY".data) (ProductService.listProductsQuery f).1.data with
    | false => rfl
    | true =>
      exact absurd (containsSub_subset _ _ hcs 'B' (by decide))
        (notB_listProductsQuery f hsort)
  · intro s hs hmem
    have hse : ¬ s = "" := by
      intro h0
      rw [h0] at hmem
      simp [ProductService.allowedSorts] at hmem
    unfold ProductService.sortClause
    rw [hs]
    simp [hse, hmem]
  · intro g hg
    obtain ⟨h1, h2, h3, h4, h5, h6, h7⟩ := hg
    unfold ProductService.listProductsQuery
    rw [categoryClause_sql_presence f g h1, minPriceClause_sql_presence f g h2,
      maxPriceClause_sql_presence f g h3, sortClause_presence f g h5 h6,
      limitClause_sql_presence f g h7]
    unfold ProductService.stockClause
    rw [h4]


/-- Witness for claim C9: the injection attempt is ignored entirely —
the built statement and parameters equal the ones built with no sort at
all. -/
theorem c9_listProducts_sort_allow_list_witness :
    ProductService.listProductsQuery c9f0 =
      ProductService.listProductsQuery { c9f0 with sortBy := none } :=
  (c9_listProducts_sort_allow_list c9f0).1 "; DROP TABLE products" rfl (by decide)

theorem keysOf_append {K V : Type} (l1 l2 : List (K × V)) :
    keysOf (l1 ++ l2) = keysOf l1 ++ keysOf l2 := List.map_append _ _ _

theorem keysOf_drop {K V : Type} (l : List (K × V)) (n : Nat) :
    keysOf (l.drop n) = (keysOf l).drop n := List.map_drop _ _ _

theorem keysOf_length {K V : Type} (l : List (K × V)) : (keysOf l).length = l.length :=
  List.length_map _ _

theorem insertAll_snoc {K V : Type} [DecidableEq K] (c : List (K × V)) (kvs : List (K × V))
    (kv : K × V) :
    DatabaseManager.insertAll c (kvs ++ [kv]) =
      DatabaseManager.cacheInsert (DatabaseManager.insertAll c kvs) kv.1 kv.2 := by
  simp [DatabaseManager.insertAll, List.foldl_append]

theorem nodup_snoc_parts {K V : Type} (l : List (K × V)) (kv : K × V)
    (h : (keysOf (l ++ [kv])).Nodup) : (keysOf l).Nodup ∧ kv.1 ∉ keysOf l := by
  rw [keysOf_append, List.nodup_append] at h
  refine ⟨h.1, ?_⟩
  intro hm
  exact h.2.2 hm (by simp [keysOf])

/-- The reachable shape of the query cache after feeding any sequence
of distinct keys into the insertion path of DatabaseManager.query,
starting empty: its keys are a suffix of the fed keys (the evicted ones
are exactly the earliest) and its size never exceeds 1001. -/
theorem insertAll_suffix {K V : Type} [DecidableEq K] (kvs : List (K × V)) :
    (keysOf kvs).Nodup →
    ∃ a, a ≤ kvs.length ∧
      keysOf (DatabaseManager.insertAll ([] : List (K × V)) kvs) = (keysOf kvs).drop a ∧
      (DatabaseManager.insertAll ([] : List (K × V)) kvs).length ≤ 1001 := by
  induction kvs using List.reverseRecOn with
  | nil =>
    intro _
    refine ⟨0, by simp, ?_, by simp [DatabaseManager.insertAll]⟩
    simp [DatabaseManager.insertAll, keysOf]
  | append_singleton l kv ih =>
    intro h
    obtain ⟨hnd, hnotl⟩ := nodup_snoc_parts l kv h
    obtain ⟨a, ha, hk, hl⟩ := ih hnd
    have hknotin : kv.1 ∉ keysOf (DatabaseManager.insertAll ([] : List (K × V)) l) := by
      rw [hk]
      intro hmm
      exact hnotl (List.mem_of_mem_drop hmm)
    have hmiss : mapGet (DatabaseManager.insertAll ([] : List (K × V)) l) kv.1 = none :=
      (mapGet_eq_none_iff _ _).mpr hknotin
    have hlenS : (DatabaseManager.insertAll ([] : List (K × V)) l).length = l.length - a := by
      have hcg := congrArg List.length hk
      rw [keysOf_length, List.length_drop, keysOf_length] at hcg
      exact hcg
    rw [insertAll_snoc, DatabaseManager.cacheInsert, hmiss]
    by_cases hbig : 1000 < (DatabaseManager.insertAll ([] : List (K × V)) l).length
    · have hS1001 : (DatabaseManager.insertAll ([] : List (K × V)) l).length = 1001 := by
        omega
      have hlength : l.length = a + 1001 := by omega
      have hnotin2 : kv.1 ∉ keysOf
          (DatabaseManager.clearOldestCacheEntries
            (DatabaseManager.insertAll ([] : List (K × V)) l)) := by
        intro hmm
        apply hknotin
        unfold DatabaseManager.clearOldestCacheEntries at hmm
        rw [keysOf_drop] at hmm
        exact List.mem_of_mem_drop hmm
      refine ⟨a + 100, ?_, ?_, ?_⟩
      · simp only [List.length_append, List.length_cons, List.length_nil]
        omega
      · rw [DatabaseManager.cachePutMiss, if_pos hbig,
          mapSet_of_not_mem _ _ _ hnotin2, keysOf_append]
        unfold DatabaseManager.clearOldestCacheEntries
        rw [keysOf_drop, hk, List.drop_drop, keysOf_append,
          List.drop_append_of_le_length (by rw [keysOf_length]; omega)]
      · rw [DatabaseManager.cachePutMiss, if_pos hbig,
          mapSet_of_not_mem _ _ _ hnotin2]
        unfold DatabaseManager.clearOldestCacheEntries
        simp only [List.length_append, List.length_drop, List.length_cons, List.length_nil]
        omega
    · refine ⟨a, ?_, ?_, ?_⟩
      · simp only [List.length_append, List.length_cons, List.length_nil]
        omega
      · rw [DatabaseManager.cachePutMiss, if_neg hbig,
          mapSet_of_not_mem _ _ _ hknotin, keysOf_append, hk, keysOf_append,
          List.drop_append_of_le_length (by rw [keysOf_length]; omega)]
      · rw [DatabaseManager.cachePutMiss, if_neg hbig,
          mapSet_of_not_mem _ _ _ hknotin]
        simp only [List.length_append, List.length_cons, List.length_nil]
        omega

/-- Feeding at most 1001 distinct keys into the insertion path never
triggers eviction: the cache is exactly the fed sequence. -/
theorem insertAll_id_of_short {K V : Type} [DecidableEq K] (kvs : List (K × V)) :
    (keysOf kvs).Nodup → kvs.length ≤ 1001 →
    DatabaseManager.insertAll ([] : List (K × V)) kvs = kvs := by
  induction kvs using List.reverseRecOn with
  | nil => intro _ _; rfl
  | append_singleton l kv ih =>
    intro h hlen
    obtain ⟨hnd, hnotl⟩ := nodup_snoc_parts l kv h
    have hllen : l.length ≤ 1000 := by
      simp only [List.length_append, List.length_cons, List.length_nil] at hlen
      omega
    have hid := ih hnd (by omega)
    have hmiss : mapGet (DatabaseManager.insertAll ([] : List (K × V)) l) kv.1 = none := by
      rw [hid]
      exact (mapGet_eq_none_iff _ _).mpr hnotl
    rw [insertAll_snoc, DatabaseManager.cacheInsert, hmiss, DatabaseManager.cachePutMiss,
      if_neg (by rw [hid]; omega), hid, mapSet_of_not_mem _ _ _ hnotl]


/-- Counterexample to claim C2 as stated: after inserting 1001 distinct
keys through the insertion path of DatabaseManager.query (cacheMaxSize
1000, evictionBatchSize 100), the cache holds 1001 entries — the size
does exceed cacheMaxSize, because eviction only triggers when the size
before an insertion is already strictly greater than 1000. -/
theorem c2_cache_size_reaches_1001 :
    1000 < (DatabaseManager.insertAll ([] : List (Nat × Nat)) c2input).length := by
  have hkeys : keysOf c2input = List.range 1001 := by
    rw [c2input, keysOf, List.map_map]
    exact List.map_id _
  have hnd : (keysOf c2input).Nodup := by
    rw [hkeys]
    exact List.nodup_range _
  have hlen : c2input.length ≤ 1001 := by simp [c2input]
  rw [insertAll_id_of_short c2input hnd hlen]
  simp [c2input]

/-- Claim C2 (amended): for every sequence of insertions of distinct
keys into the query cache through the insertion path of
DatabaseManager.query with its ceiling 1000 and eviction batch 100, the
cache size never exceeds 1001 (one more than the ceiling, since
eviction of the oldest 100 entries in insertion order only fires when
the size before an insert already exceeds 1000), and the keys remaining
in the cache are exactly a suffix of the inserted sequence — so the
earliest-inserted keys are exactly the absent ones, and once more than
1001 distinct keys have been inserted some earliest keys are absent. -/
theorem c2_eviction_bound {K V : Type} [DecidableEq K] (kvs : List (K × V))
    (h : (keysOf kvs).Nodup) :
    keysOf (DatabaseManager.insertAll ([] : List (K × V)) kvs) =
      (keysOf kvs).drop
        (kvs.length - (DatabaseManager.insertAll ([] : List (K × V)) kvs).length) ∧
    (DatabaseManager.insertAll ([] : List (K × V)) kvs).length ≤ 1001 ∧
    (1001 < kvs.length →
      (DatabaseManager.insertAll ([] : List (K × V)) kvs).length < kvs.length) := by
  obtain ⟨a, ha, hk, hl⟩ := insertAll_suffix kvs h
  have hlenS : (DatabaseManager.insertAll ([] : List (K × V)) kvs).length =
      kvs.length - a := by
    have hcg := congrArg List.length hk
    rw [keysOf_length, List.length_drop, keysOf_length] at hcg
    exact hcg
  have haa : kvs.length - (DatabaseManager.insertAll ([] : List (K × V)) kvs).length = a := by
    omega
  refine ⟨by rw [haa]; exact hk, hl, ?_⟩
  intro hbig
  omega

/-- Witness for the amended claim C2 at a two-entry insertion
sequence. -/
theorem c2_eviction_bound_witness :
    keysOf (DatabaseManager.insertAll ([] : List (Nat × Nat)) [(0, 0), (1, 0)]) =
      (keysOf [((0 : Nat), (0 : Nat)), (1, 0)]).drop
        ([((0 : Nat), (0 : Nat)), (1, 0)].length -
          (DatabaseManager.insertAll ([] : List (Nat × Nat)) [(0, 0), (1, 0)]).length) ∧
    (DatabaseManager.insertAll ([] : List (Nat × Nat)) [(0, 0), (1, 0)]).length ≤ 1001 ∧
    (1001 < [((0 : Nat), (0 : Nat)), (1, 0)].length →
      (DatabaseManager.insertAll ([] : List (Nat × Nat)) [(0, 0), (1, 0)]).length <
        [((0 : Nat), (0 : Nat)), (1, 0)].length) :=
  c2_eviction_bound [(0, 0), (1, 0)] (by decide)
